import Mathlib

/-!
Shallow embedding of `file_info.py` (a command-line file metadata reporter).

The program's observable state is the filesystem tree it inspects plus the
lines it prints.  The embedding models:

* a filesystem tree (`FSEntry` / `FSList`), where each node carries the
  platform stat record (`StatResult`) that `os.stat` would report for it,
  together with flags for the fallible system calls the program performs
  (`sizeOk` — whether `os.path.getsize` succeeds on the file, `listable` —
  whether `os.scandir` / a directory listing succeeds, `lines` — the result
  of opening the file and counting lines, `none` when `open` raises);
* symbolic links via `Resolved`: what the link's target resolves to
  (`os.stat`/`os.path.getsize`/`os.path.isdir` follow links, while
  `os.scandir` entry classification checks `is_symlink` first and `os.walk`
  does not descend into symlinked directories);
* Python exceptions as the `PyErr` type; a `try/except OSError` block
  catches exactly the `osError` constructor;
* diagnostic reporting: the program reports every error with `print`, so
  each modelled operation returns the list of lines it prints.

Machine reals: the source computes the unit index with
`int(log2(size) / log2(base))`; the embedding idealises this to the exact
integer `floor(log_base size)` (`logFloor`), which is also how the spec
describes the computation, and renders `f"{x:.1f}"` by exact rational
rounding (round half to even, Python's float-formatting rule); the examples
settled here are exactly representable, so no float rounding is lost.
-/

/-- The fields of `os.stat_result` that the program reads.  `st_ctime` and
`st_mtime` are POSIX timestamps in seconds (modelled as integers; the
sub-second fraction is irrelevant to minute-resolution formatting). -/
structure StatResult where
  st_mode : Nat
  st_size : Nat
  st_ctime : Int
  st_mtime : Int
  st_ino : Nat
deriving DecidableEq, Repr

/-- What a symbolic link resolves to.  `rfile`/`rdir` carry the stat record
of the target (what the link-following calls `os.stat`, `os.path.getsize`,
`os.path.isdir` observe); `broken` is a dangling link, on which the
following calls raise `OSError`.  The contents of a directory target are
not modelled: the program never lists a directory through a symlink
(`count_file` classifies links before directories and does not recurse, and
`os.walk(followlinks=False)` does not descend into symlinked directories). -/
inductive Resolved where
  | rfile (stats : StatResult)
  | rdir (stats : StatResult)
  | broken
deriving DecidableEq, Repr

mutual
/-- A filesystem node, named by its basename (the program joins paths only
to recurse; names stand in for full paths in reported messages). -/
inductive FSEntry where
  | file (name : String) (stats : StatResult) (sizeOk : Bool) (lines : Option Nat)
  | dir (name : String) (stats : StatResult) (entries : FSList) (listable : Bool)
  | symlink (name : String) (target : String) (res : Resolved)
deriving DecidableEq, Repr

/-- Directory contents, as a mutually inductive list so that structural
recursion over the tree is available. -/
inductive FSList where
  | nil
  | cons (e : FSEntry) (rest : FSList)
deriving DecidableEq, Repr
end

/-- Build directory contents from an ordinary list (notation helper). -/
def FSList.mk : List FSEntry → FSList
  | [] => .nil
  | e :: r => .cons e (FSList.mk r)

/-- Concatenation of directory-content lists. -/
def FSList.app : FSList → FSList → FSList
  | .nil, b => b
  | .cons e r, b => .cons e (FSList.app r b)

/-- `os.path.basename` of the entry's path. -/
def FSEntry.name : FSEntry → String
  | .file n _ _ _ => n
  | .dir n _ _ _ => n
  | .symlink n _ _ => n

/-- Python exceptions distinguished by the program: `except OSError`
catches only `osError`; `typeError` (raised by formatting `None` with a
`d` format spec) and `indexError` (raised by an out-of-range list index)
propagate through such handlers. -/
inductive PyErr where
  | osError (msg : String)
  | typeError (msg : String)
  | indexError (msg : String)
deriving DecidableEq, Repr

/-- `UNITS_1000` from the source: the decimal unit ladder. -/
def UNITS_1000 : List String := ["B", "KB", "MB", "GB", "TB", "PB", "EB"]

/-- `UNITS_1024` from the source: the binary unit ladder. -/
def UNITS_1024 : List String := ["B", "KiB", "MiB", "GiB", "TiB", "PiB", "EiB"]

/-- Fuel-driven floor logarithm: `logFloorAux fuel base n` counts how many
times `n` can be divided by `base` before dropping below `base`.  With
`fuel ≥ n` and `base ≥ 2` this is exactly `⌊log_base n⌋`. -/
def logFloorAux : Nat → Nat → Nat → Nat
  | 0, _, _ => 0
  | fuel + 1, base, n => if n < base then 0 else logFloorAux fuel base (n / base) + 1

/-- `⌊log_base n⌋` for `n ≥ 1`, `base ≥ 2`; the exact value of the
source's `int(log2(size) / log2(base))` (idealising float arithmetic to
exact reals, as the spec's own description `floor(log_base(size))` does). -/
def logFloor (base n : Nat) : Nat := logFloorAux n base n

/-- Render the rational `p / q` (with `q > 0`) rounded to one decimal
place, as Python's `f"{p / q:.1f}"` does (round half to even). -/
def oneDecimal (p q : Nat) : String :=
  let n := p * 10
  let d := n / q
  let r := n % q
  let d := if q < 2 * r ∨ (2 * r = q ∧ d % 2 = 1) then d + 1 else d
  toString (d / 10) ++ "." ++ toString (d % 10)

/-- The base selected by `calculate_size`'s line
`base = 1000 if units == UNITS_1000 else 1024`. -/
def unitsBase (units : List String) : Nat :=
  if units = UNITS_1000 then 1000 else 1024

/-- `calculate_size(size, units)`: human-readable size string.  Mirrors the
source: sizes `≤ 0` short-circuit to `"0 B"`; otherwise the unit index is
the floor logarithm, used to index `units` with no clamping — an index
beyond the end of the ladder is Python's `IndexError`, modelled as `none`. -/
def calculate_size (size : Int) (units : List String) : Option String :=
  if size ≤ 0 then some "0 B"
  else
    let base := unitsBase units
    let i := logFloor base size.toNat
    match units[i]? with
    | some u => some (oneDecimal size.toNat (base ^ i) ++ " " ++ u)
    | none => none

example : calculate_size 999 UNITS_1000 = some "999.0 B" := by decide
example : calculate_size 1000 UNITS_1000 = some "1.0 KB" := by decide
example : calculate_size 1024 UNITS_1024 = some "1.0 KiB" := by decide
example : calculate_size 1536 UNITS_1024 = some "1.5 KiB" := by decide
example : calculate_size 0 UNITS_1000 = some "0 B" := by decide
example : calculate_size ((10 : Int) ^ 24) UNITS_1000 = none := by decide

mutual
/-- Contribution of one directory entry to `get_size`'s `os.walk` loop
(result: bytes added, diagnostic lines printed).  `os.walk` classifies an
entry into `dirnames` iff `entry.is_dir()` — which follows symlinks — and
yields everything else in `filenames`; `get_size` then calls
`os.path.getsize` (which also follows symlinks) on each filename.  Hence a
regular file contributes its stat size (or a reported, skipped `OSError`
when the size cannot be obtained), a symlink to a regular file contributes
its target's stat size, a broken symlink is a reported, skipped `OSError`,
a symlink to a directory lands in `dirnames` and — `followlinks` being
false — is not descended into, and a real directory is walked recursively
(a listing failure is silently skipped: `os.walk`'s default `onerror` is
`None`).  The `OSError` text is abstracted to the entry name. -/
def walkEntrySize : FSEntry → Nat × List String
  | .file n st sizeOk _ =>
      if sizeOk then (st.st_size, []) else (0, ["Error: " ++ n])
  | .symlink _ _ (.rfile st) => (st.st_size, [])
  | .symlink _ _ (.rdir _) => (0, [])
  | .symlink n _ .broken => (0, ["Error: " ++ n])
  | .dir _ _ sub listable =>
      if listable then getSizeList sub else (0, [])

/-- Total bytes and diagnostics accumulated by `get_size`'s walk over a
directory's contents. -/
def getSizeList : FSList → Nat × List String
  | .nil => (0, [])
  | .cons e rest =>
      let h := walkEntrySize e
      let t := getSizeList rest
      (h.1 + t.1, h.2 ++ t.2)
end

/-- `get_size(path)`.  A regular-file path returns its stat size directly
(`os.stat(path).st_size`, an uncaught `OSError` if the stat fails); a
symlinked file behaves the same through `os.path.isfile`/`os.stat`, which
follow the link.  Any other path is walked with `os.walk`, which yields
nothing for a non-directory or an unlistable directory. -/
def get_size : FSEntry → Except PyErr (Nat × List String)
  | .file n st sizeOk _ =>
      if sizeOk then .ok (st.st_size, []) else .error (.osError n)
  | .symlink _ _ (.rfile st) => .ok (st.st_size, [])
  | .symlink _ _ (.rdir _) => .ok (0, [])
  | .symlink _ _ .broken => .ok (0, [])
  | .dir _ _ sub listable =>
      if listable then .ok (getSizeList sub) else .ok (0, [])

/-- `os.path.exists(path)` — follows symlinks, so only a dangling link
(or a nonexistent path, which the model represents the same way) fails. -/
def path_exists : FSEntry → Bool
  | .symlink _ _ .broken => false
  | _ => true

/-- `stat_size(path, multiplier)` (result: diagnostic lines printed, then
the returned value or the escaping exception).  A nonexistent path prints
an error and returns `None`; otherwise the accumulated byte total is
formatted with the ladder selected by `multiplier == 1000`, and an
out-of-ladder unit index escapes as `IndexError`. -/
def stat_size (e : FSEntry) (multiplier : Nat) :
    List String × Except PyErr (Option String) :=
  if path_exists e = false then (["Error: Path does not exist."], .ok none)
  else
    match get_size e with
    | .error err => ([], .error err)
    | .ok (sz, errs) =>
        let units := if multiplier = 1000 then UNITS_1000 else UNITS_1024
        match calculate_size (Int.ofNat sz) units with
        | some s => (errs, .ok (some s))
        | none => (errs, .error (.indexError "list index out of range"))

/-- A call of `stat_size` with the `multiplier` argument omitted: Python
fills in the declared default `1000`.  Both call sites in the program
(`short_mod` line 227 and `long_mod` line 291) use this form. -/
def stat_size_default (e : FSEntry) : List String × Except PyErr (Option String) :=
  stat_size e 1000

/-- The `FileCount` accumulator class: `dirs`, `files`, `links`. -/
structure FileCount where
  dirs : Nat
  files : Nat
  links : Nat
deriving DecidableEq, Repr

mutual
/-- `count_file(path, counts)`: scans `path` with `os.scandir`; the whole
loop is wrapped in `try/except OSError`, so an unlistable directory (or a
non-directory path, on which `scandir` raises `NotADirectoryError`)
contributes nothing and prints one diagnostic line.  Result: the counts
added to the accumulator and the diagnostic lines printed. -/
def count_file : FSEntry → FileCount × List String
  | .dir _ _ sub true => countList sub
  | .dir n _ _ false => (⟨0, 0, 0⟩, ["Cannot open directory: " ++ n])
  | e => (⟨0, 0, 0⟩, ["Cannot open directory: " ++ e.name])

/-- The `for entry in os.scandir(path)` loop body of `count_file`:
`entry.is_symlink()` is tested first (so every symlink counts as a link,
even one pointing at a directory, and is never recursed into), then
`entry.is_dir()` (increment `dirs`, recurse), then `entry.is_file()`. -/
def countList : FSList → FileCount × List String
  | .nil => (⟨0, 0, 0⟩, [])
  | .cons e rest =>
      let h : FileCount × List String :=
        match e with
        | .symlink _ _ _ => (⟨0, 0, 1⟩, [])
        | .dir _ _ _ _ =>
            let r := count_file e
            (⟨r.1.dirs + 1, r.1.files, r.1.links⟩, r.2)
        | .file _ _ _ _ => (⟨0, 1, 0⟩, [])
      let t := countList rest
      (⟨h.1.dirs + t.1.dirs, h.1.files + t.1.files, h.1.links + t.1.links⟩,
       h.2 ++ t.2)
end

/-- `line_count(filename)` (result: returned value, diagnostic lines).
Returns the number of lines, or — when `open` raises `OSError` — prints
the error and falls off the end of the function, returning `None`. -/
def line_count : FSEntry → Option Nat × List String
  | .file _ _ _ (some k) => (some k, [])
  | .file n _ _ none => (none, ["Could not open file " ++ n ++ ". Error: denied"])
  | e => (none, ["Could not open file " ++ e.name ++ ". Error: denied"])

/-- `os.stat(path)`: succeeds with the node's stat record; it follows
symlinks, reporting the target's record and raising `OSError`
(`FileNotFoundError`) on a dangling link. -/
def os_stat : FSEntry → Except PyErr StatResult
  | .file _ st _ _ => .ok st
  | .dir _ st _ _ => .ok st
  | .symlink _ _ (.rfile st) => .ok st
  | .symlink _ _ (.rdir st) => .ok st
  | .symlink n _ .broken => .error (.osError ("No such file or directory: " ++ n))

/-- Zero-pad a number to two digits (strftime's `%d`, `%m`, `%H`, `%M`). -/
def pad2 (n : Nat) : String := if n < 10 then "0" ++ toString n else toString n

/-- Proleptic-Gregorian civil date from a count of days since 1970-01-01
(Euclidean division keeps the day-of-era nonnegative for dates before the
epoch).  Model of the calendar arithmetic inside `time.localtime`. -/
def civilFromDays (z0 : Int) : Int × Nat × Nat :=
  let z := z0 + 719468
  let era := Int.ediv z 146097
  let doe := (Int.emod z 146097).toNat
  let yoe := (doe - doe / 1460 + doe / 36524 - doe / 146096) / 365
  let y := (yoe : Int) + era * 400
  let doy := doe - (365 * yoe + yoe / 4 - yoe / 100)
  let mp := (5 * doy + 2) / 153
  let d := doy - (153 * mp + 2) / 5 + 1
  let m := if mp < 10 then mp + 3 else mp - 9
  (if m ≤ 2 then y + 1 else y, m, d)

/-- `time.strftime("%d %m-%Y %H:%M", time.localtime(t))` for a POSIX
timestamp `t`: the compact mode's fixed-width date/time form.  `localtime`
applies the session's timezone offset; the model uses UTC (offset 0) —
none of the settled properties depend on the offset. -/
def strftimeShort (t : Int) : String :=
  let days := Int.ediv t 86400
  let secs := (Int.emod t 86400).toNat
  let c := civilFromDays days
  pad2 c.2.2 ++ " " ++ pad2 c.2.1 ++ "-" ++ toString c.1 ++ " " ++
    pad2 (secs / 3600) ++ ":" ++ pad2 (secs % 3600 / 60)

example : strftimeShort 0 = "01 01-1970 00:00" := by decide

/-- `print_mod_time(stats)`.  The source formats
`time.localtime(stats.st_ctime)` — the inode *change* time — although its
own docstring promises "the modification time of the file". -/
def print_mod_time (stats : StatResult) : String :=
  strftimeShort stats.st_ctime

/-- One row of CPython's `stat._filemode_table`: bit patterns tried in
order, first full match wins, `'-'` otherwise. -/
def filemodeRow (mode : Nat) (table : List (Nat × Char)) : Char :=
  match table.find? (fun bc => Nat.land mode bc.1 = bc.1) with
  | some bc => bc.2
  | none => '-'

/-- `stat.filemode(mode)`: the 10-character symbolic permission string,
per CPython's `_filemode_table` (file-type character, then three
`rwx`-triads with setuid/setgid/sticky handling). -/
def filemode (mode : Nat) : String :=
  String.mk
    [filemodeRow mode [(0o120000, 'l'), (0o140000, 's'), (0o100000, '-'),
        (0o060000, 'b'), (0o040000, 'd'), (0o020000, 'c'), (0o010000, 'p')],
     filemodeRow mode [(0o400, 'r')],
     filemodeRow mode [(0o200, 'w')],
     filemodeRow mode [(0o4100, 's'), (0o4000, 'S'), (0o100, 'x')],
     filemodeRow mode [(0o040, 'r')],
     filemodeRow mode [(0o020, 'w')],
     filemodeRow mode [(0o2010, 's'), (0o2000, 'S'), (0o010, 'x')],
     filemodeRow mode [(0o004, 'r')],
     filemodeRow mode [(0o002, 'w')],
     filemodeRow mode [(0o1001, 't'), (0o1000, 'T'), (0o001, 'x')]]

example : filemode 0o100644 = "-rw-r--r--" := by decide
example : filemode 0o040755 = "drwxr-xr-x" := by decide

/-- `print_permissions(stats) = stat.filemode(stats.st_mode)`. -/
def print_permissions (stats : StatResult) : String :=
  filemode stats.st_mode

/-- One optional colour code of `print_color`'s escape sequence; Python's
`if attr:` / `if fg:` / `if bg:` treats `0` as falsy, so a zero code is
omitted like an absent one. -/
def colorPart : Option Nat → String
  | some v => if v = 0 then "" else toString v ++ ";"
  | none => ""

/-- `print_color(text, fg, bg, attr)`: the printed line, i.e. the escape
sequence (attr, then fg, then bg, trailing `';'` stripped, closed with
`'m'`), the text, and the reset sequence. -/
def print_color (text : String) (fg bg attr : Option Nat) : String :=
  let esc := "\x1b[" ++ colorPart attr ++ colorPart fg ++ colorPart bg
  let esc := String.mk (((esc.toList.reverse).dropWhile (fun c => c = ';')).reverse)
  esc ++ "m" ++ text ++ "\x1b[0m"

example : print_color "hi" (some 35) none none = "\x1b[35mhi\x1b[0m" := by decide

/-- Python `f"{v:>wd}"`: right-align the decimal rendering of `v` in `w`
columns — and raise `TypeError` when `v` is `None`, since `None` does not
support the `d` format spec. -/
def fmtRightD (w : Nat) (v : Option Nat) : Except PyErr String :=
  match v with
  | none => .error (.typeError "unsupported format string passed to NoneType")
  | some n =>
      let s := toString n
      .ok (String.mk (List.replicate (w - s.length) ' ') ++ s)

/-- Python `f"{n:<wd}"`: left-align the decimal rendering of `n` in `w`
columns. -/
def fmtLeftD (w : Nat) (n : Nat) : String :=
  let s := toString n
  s ++ String.mk (List.replicate (w - s.length) ' ')

/-- Python `f"{v}"` on an optional string: `str(None)` is `"None"`. -/
def pyStrOpt : Option String → String
  | some s => s
  | none => "None"

/-- `short_mod(pathname)`: the compact renderer (result: lines printed, and
the exception escaping it, if any).  The body's `try/except OSError`
catches the `OSError`s of `os.stat` and of `stat_size`'s file-stat path and
prints `"Error: ..."`; any other exception — the `IndexError` a huge size
makes `calculate_size` raise, or the `TypeError` raised by formatting a
`None` line count with `f"{lines:>23d}"` — escapes.  Branch order follows
the source: `islink` first (so a symlink to a directory renders as a link),
then `isdir` (count children, green line), then `isfile` (line count, blue
line). -/
def short_mod (e : FSEntry) : List String × Option PyErr :=
  match os_stat e with
  | .error (.osError m) => (["Error: " ++ m], none)
  | .error err => ([], some err)
  | .ok stats =>
    let s := stat_size_default e
    match s.2 with
    | .error (.osError m) => (s.1 ++ ["Error: " ++ m], none)
    | .error err => (s.1, some err)
    | .ok size =>
      let mod_time := print_mod_time stats
      let permissions := print_permissions stats
      let basename := FSEntry.name e
      match e with
      | .symlink _ target _ =>
          (s.1 ++ [print_color (permissions ++ ", " ++ pyStrOpt size ++ ", " ++
            mod_time ++ "\t" ++ basename ++ " -> " ++ target) (some 35) none none],
           none)
      | .dir _ _ _ _ =>
          let r := count_file e
          (s.1 ++ r.2 ++ [print_color (permissions ++ ", " ++ pyStrOpt size ++
            ", F:" ++ fmtLeftD 6 r.1.files ++ ", D:" ++ fmtLeftD 6 r.1.dirs ++
            ", S:" ++ fmtLeftD 6 r.1.links ++ ", " ++ mod_time ++ "\t" ++
            basename) (some 32) none none],
           none)
      | .file _ _ _ _ =>
          let lc := line_count e
          match fmtRightD 23 lc.1 with
          | .error err => (s.1 ++ lc.2, some err)
          | .ok lineStr =>
              (s.1 ++ lc.2 ++ [print_color (permissions ++ ", " ++
                pyStrOpt size ++ ", " ++ lineStr ++ " lines, " ++ mod_time ++
                "\t" ++ basename) (some 34) none none],
               none)

/-- The size computation of `long_mod` (source line 291,
`size = stat_size(pathname)`), performed before any platform branching;
the value is placed verbatim in the table's Size column.  The rest of
`long_mod` — identity lookup via `pwd`/`grp`/`wmi` and `tabulate`
rendering — is an external collaborator per the spec's §6 and no claim
depends on it. -/
def long_mod_size (e : FSEntry) : List String × Except PyErr (Option String) :=
  stat_size_default e

/-- The two display modes. -/
inductive Mode where
  | compact
  | long
deriving DecidableEq, Repr

/-- The dispatch of `main`'s per-path body: `if args.s: short_mod(...)`,
`elif args.l: long_mod(...)`, `else: short_mod(...)`. -/
def selected_mode (s l : Bool) : Mode :=
  if s then .compact else if l then .long else .compact

/-- `argparse` positional `paths` with `nargs='*'` and `default=['.']`:
the current directory when no path argument is given. -/
def effective_paths (ps : List String) : List String :=
  if ps.isEmpty then ["."] else ps

/-- `main`'s loop over `args.paths` in compact mode (result: lines
printed, and the exception that terminated the run, if any).  Each path's
renderer call sits in its own `try/except OSError`; an `OSError` is
printed and the loop continues, while any other exception propagates out
of `main` and ends the process — no later path is processed. -/
def main_loop : List FSEntry → List String × Option PyErr
  | [] => ([], none)
  | e :: rest =>
      match short_mod e with
      | (out, none) =>
          let r := main_loop rest
          (out ++ r.1, r.2)
      | (out, some (.osError m)) =>
          let r := main_loop rest
          (out ++ ["Error: " ++ m] ++ r.1, r.2)
      | (out, some err) => (out, some err)

/-- Does the second character list occur at the head of the first? -/
def charsStartWith : List Char → List Char → Bool
  | _, [] => true
  | [], _ :: _ => false
  | c :: cs, p :: ps => c = p && charsStartWith cs ps

/-- Does the second character list occur anywhere inside the first? -/
def charsContain : List Char → List Char → Bool
  | [], pat => pat.isEmpty
  | c :: rest, pat => charsStartWith (c :: rest) pat || charsContain rest pat

/-- Does `s` contain `pat` as a substring? -/
def containsStr (s pat : String) : Bool :=
  charsContain s.toList pat.toList

mutual
/-- The directory total described by the spec's words (for comparison with
`get_size`): "the sum of the stat-reported sizes of exactly the regular
files among its descendants: directories and symbolic links contribute
0". -/
def claimedRegularSum : FSEntry → Nat
  | .file _ st _ _ => st.st_size
  | .dir _ _ sub _ => claimedRegularSumList sub
  | .symlink _ _ _ => 0

/-- Sum of `claimedRegularSum` over directory contents. -/
def claimedRegularSumList : FSList → Nat
  | .nil => 0
  | .cons e rest => claimedRegularSum e + claimedRegularSumList rest
end

theorem countList_app (a b : FSList) :
    countList (FSList.app a b) =
      (⟨(countList a).1.dirs + (countList b).1.dirs,
        (countList a).1.files + (countList b).1.files,
        (countList a).1.links + (countList b).1.links⟩,
       (countList a).2 ++ (countList b).2) := by
  match a with
  | .nil => simp [FSList.app, countList]
  | .cons e rest =>
      have ih := countList_app rest b
      simp only [FSList.app, countList, ih, Nat.add_assoc, List.append_assoc]

theorem getSizeList_app (a b : FSList) :
    getSizeList (FSList.app a b) =
      ((getSizeList a).1 + (getSizeList b).1,
       (getSizeList a).2 ++ (getSizeList b).2) := by
  match a with
  | .nil => simp [FSList.app, getSizeList]
  | .cons e rest =>
      have ih := getSizeList_app rest b
      simp only [FSList.app, getSizeList, ih, Nat.add_assoc, List.append_assoc]

theorem logFloorAux_le_iff (base : Nat) (hb : 2 ≤ base) :
    ∀ fuel n k, n ≤ fuel → 1 ≤ n →
      (logFloorAux fuel base n ≤ k ↔ n < base ^ (k + 1)) := by
  intro fuel
  induction fuel with
  | zero => intro n k hnf hn; omega
  | succ fuel ih =>
      intro n k hnf hn
      by_cases hsmall : n < base
      · simp only [logFloorAux, if_pos hsmall]
        constructor
        · intro _
          calc n < base ^ 1 := by simpa using hsmall
            _ ≤ base ^ (k + 1) := Nat.pow_le_pow_right (by omega) (by omega)
        · intro _; exact Nat.zero_le k
      · simp only [logFloorAux, if_neg hsmall]
        push_neg at hsmall
        have hdivlt : n / base < n := Nat.div_lt_self (by omega) (by omega)
        have hdiv1 : 1 ≤ n / base := (Nat.one_le_div_iff (by omega)).mpr hsmall
        match k with
        | 0 =>
            have hpow : base ^ (0 + 1) = base := by norm_num
            rw [hpow]
            constructor
            · intro h; omega
            · intro h; omega
        | k + 1 =>
            have := ih (n / base) k (by omega) hdiv1
            constructor
            · intro h
              have hd : n / base < base ^ (k + 1) := this.mp (by omega)
              have := (Nat.div_lt_iff_lt_mul (by omega : 0 < base)).mp hd
              calc n < base ^ (k + 1) * base := this
                _ = base ^ (k + 1 + 1) := by ring
            · intro h
              have hmul : n < base ^ (k + 1) * base := by
                calc n < base ^ (k + 1 + 1) := h
                  _ = base ^ (k + 1) * base := by ring
              have hd : n / base < base ^ (k + 1) :=
                (Nat.div_lt_iff_lt_mul (by omega : 0 < base)).mpr hmul
              have := this.mpr hd
              omega

theorem logFloor_le_iff (base n k : Nat) (hb : 2 ≤ base) (hn : 1 ≤ n) :
    logFloor base n ≤ k ↔ n < base ^ (k + 1) :=
  logFloorAux_le_iff base hb n n k (Nat.le_refl n) hn

/-! Concrete fixtures used by the claim theorems. -/

/-- A stat record of an ordinary `rw-r--r--` regular file of 12 bytes. -/
def stReg : StatResult := ⟨0o100644, 12, 0, 0, 1⟩

/-- A stat record of an ordinary `rwxr-xr-x` directory. -/
def stDir : StatResult := ⟨0o040755, 4096, 0, 0, 2⟩

/-- A regular file that exists and stats fine but cannot be opened for
reading (e.g. mode `000` for the invoking user): `line_count` prints the
`OSError` and returns `None`. -/
def c1_unreadable : FSEntry := .file "secret.txt" stReg true none

/-- An unremarkable readable 3-line file processed after the broken one. -/
def c1_next : FSEntry := .file "b.txt" stReg true (some 3)

/-- C1: REFUTED AS STATED — the code contradicts the spec's stated intent.
When a file's line count cannot be obtained in compact mode, `line_count`
prints the error and returns `None`, and `short_mod`'s f-string
`f"{lines:>23d}"` then raises `TypeError`.  Neither `short_mod`'s nor
`main`'s `except OSError` catches a `TypeError`, so the exception
terminates the whole multi-path run: here the run over
`[c1_unreadable, c1_next]` stops with the `TypeError` after the diagnostic
line, and `c1_next` — which on its own is processed normally, producing
output — is never processed. -/
theorem c1_line_count_failure_kills_run :
    main_loop [c1_unreadable, c1_next] =
      (["Could not open file secret.txt. Error: denied"],
       some (.typeError "unsupported format string passed to NoneType")) ∧
    (main_loop [c1_next]).2 = none ∧
    (main_loop [c1_next]).1 ≠ [] := by
  refine ⟨by decide, by decide, by decide⟩

/-- C2, counterexample: the unit index is *not* clamped.  At
`size = 10^24 = 1000^8` the computed decimal-ladder index is 8, one past
the last valid index 6 of the 7-entry ladder, and formatting raises
`IndexError` (modelled as `none`) instead of succeeding. -/
theorem c2_unclamped_index_counterexample :
    calculate_size ((10 : Int) ^ 24) UNITS_1000 = none ∧
    logFloor 1000 ((10 : Int) ^ 24).toNat = 8 ∧
    UNITS_1000.length = 7 := by
  refine ⟨by decide, by decide, by decide⟩

/-- C2, amended: for every positive size and either unit ladder, the unit
index equals `floor(log_base(size))` with *no* clamping; it stays within
the ladder — and formatting succeeds — exactly when `size < base ^ 7`,
and for larger sizes the out-of-range index makes formatting fail
(`IndexError`) rather than fall back to the largest unit. -/
theorem c2_amended_unclamped_index (size : Int) (units : List String)
    (hpos : 0 < size) (hunits : units = UNITS_1000 ∨ units = UNITS_1024) :
    calculate_size size units =
      (units[logFloor (unitsBase units) size.toNat]?).map
        (fun u => oneDecimal size.toNat
          (unitsBase units ^ logFloor (unitsBase units) size.toNat) ++ " " ++ u) ∧
    ((calculate_size size units).isSome ↔ size.toNat < unitsBase units ^ 7) := by
  have hn : 1 ≤ size.toNat := by omega
  have hb : 2 ≤ unitsBase units := by
    rcases hunits with h | h <;> subst h <;> decide
  have hlen : units.length = 7 := by
    rcases hunits with h | h <;> subst h <;> decide
  have hmain : calculate_size size units =
      (units[logFloor (unitsBase units) size.toNat]?).map
        (fun u => oneDecimal size.toNat
          (unitsBase units ^ logFloor (unitsBase units) size.toNat) ++ " " ++ u) := by
    unfold calculate_size
    rw [if_neg (by omega : ¬ size ≤ 0)]
    cases h : units[logFloor (unitsBase units) size.toNat]? <;> simp [h]
  refine ⟨hmain, ?_⟩
  rw [hmain]
  rw [show ∀ (f : String → String) (x : Option String),
        (Option.map f x).isSome = x.isSome from fun f x => by cases x <;> rfl]
  have hiso : (units[logFloor (unitsBase units) size.toNat]?).isSome = true ↔
      logFloor (unitsBase units) size.toNat < units.length := by
    constructor
    · intro h
      by_contra hlt
      rw [List.getElem?_eq_none (by omega)] at h
      simp at h
    · intro h
      rw [List.getElem?_eq_getElem h]
      rfl
  rw [hiso, hlen]
  have hiff := logFloor_le_iff (unitsBase units) size.toNat 6 hb hn
  have hpow : unitsBase units ^ (6 + 1) = unitsBase units ^ 7 := by norm_num
  rw [hpow] at hiff
  omega

/-- C2, witness for the amended theorem at `size = 1536` on the binary
ladder (index 1, `"1.5 KiB"`, within bounds). -/
theorem c2_amended_unclamped_index_witness :
    (0 : Int) < 1536 ∧
    (calculate_size 1536 UNITS_1024 =
      (UNITS_1024[logFloor (unitsBase UNITS_1024) (1536 : Int).toNat]?).map
        (fun u => oneDecimal (1536 : Int).toNat
          (unitsBase UNITS_1024 ^ logFloor (unitsBase UNITS_1024) (1536 : Int).toNat) ++ " " ++ u) ∧
     ((calculate_size 1536 UNITS_1024).isSome ↔
        (1536 : Int).toNat < unitsBase UNITS_1024 ^ 7)) :=
  ⟨by decide, c2_amended_unclamped_index 1536 UNITS_1024 (by decide) (Or.inr rfl)⟩

/-- A directory holding one 10-byte regular file and one symlink whose
target is a 7-byte regular file elsewhere. -/
def c3_dir : FSEntry :=
  .dir "d" stDir (FSList.mk
    [.file "a" ⟨0o100644, 10, 0, 0, 4⟩ true (some 1),
     .symlink "s" "elsewhere" (.rfile ⟨0o100644, 7, 0, 0, 3⟩)]) true

/-- C3, counterexample: symlink targets ARE followed for sizing.
`os.walk` classifies a symlink-to-file into `filenames` and
`os.path.getsize` follows it, so `get_size` on `c3_dir` returns
`10 + 7 = 17`, while the sum the claim describes — stat sizes of exactly
the regular files among the descendants, symlinks contributing 0 — is
`10`. -/
theorem c3_symlink_target_sized_counterexample :
    get_size c3_dir = .ok (17, []) ∧
    claimedRegularSum c3_dir = 10 ∧
    (17 : Nat) ≠ 10 := by
  refine ⟨rfl, by decide, by decide⟩

/-- C3, amended: `get_size` on a directory sums, over the non-following
walk, the `getsize` of every entry classified as a filename: a regular
file contributes its stat size, a symlink to a regular file contributes
its *target's* stat size (the target is followed by `getsize`), a symlink
to a directory and a dangling symlink contribute 0, and a (listable)
subdirectory contributes the recursive sum of its own contents. -/
theorem c3_amended_walk_contributions (n t dn : String) (st dst : StatResult)
    (lines : Option Nat) (sub rest : FSList) :
    (getSizeList (.cons (.symlink n t (.rfile st)) rest)).1 =
      st.st_size + (getSizeList rest).1 ∧
    (getSizeList (.cons (.symlink n t (.rdir st)) rest)).1 = (getSizeList rest).1 ∧
    (getSizeList (.cons (.symlink n t .broken) rest)).1 = (getSizeList rest).1 ∧
    (getSizeList (.cons (.file n st true lines) rest)).1 =
      st.st_size + (getSizeList rest).1 ∧
    (getSizeList (.cons (.dir dn dst sub true) rest)).1 =
      (getSizeList sub).1 + (getSizeList rest).1 ∧
    get_size (.dir dn dst sub true) = .ok (getSizeList sub) := by
  refine ⟨?_, ?_, ?_, ?_, ?_, ?_⟩
  all_goals simp [getSizeList, walkEntrySize, get_size]

/-- A stat record whose change time (epoch 0) and modification time
(epoch 864000, ten days later) differ — e.g. a file `chmod`ed long after
its last write. -/
def c4_stat : StatResult := ⟨0o100644, 12, 0, 864000, 5⟩

/-- A readable 3-line file with `c4_stat` as its stat record. -/
def c4_file : FSEntry := .file "a.txt" c4_stat true (some 3)

/-- C4: REFUTED — the code contradicts its own docstring.  The compact
mode's timestamp is produced by `print_mod_time`, whose docstring promises
"the modification time of the file" but which formats `stats.st_ctime`
(the inode change time), not `stats.st_mtime`: on `c4_stat` the printed
compact line contains the `st_ctime`-derived string, which differs from
the `st_mtime`-derived one.  The fixed-width part of the claim does hold:
the `"%d %m-%Y %H:%M"` form is 16 characters. -/
theorem c4_compact_timestamp_is_ctime :
    (∀ st : StatResult, print_mod_time st = strftimeShort st.st_ctime) ∧
    print_mod_time c4_stat ≠ strftimeShort c4_stat.st_mtime ∧
    containsStr (String.join (short_mod c4_file).1) (print_mod_time c4_stat) = true ∧
    (strftimeShort c4_stat.st_ctime).length = 16 ∧
    (strftimeShort c4_stat.st_mtime).length = 16 := by
  refine ⟨fun st => rfl, by decide, by decide, by decide, by decide⟩

/-- The spec's Entry Counter example: 2 regular files, 1 subdirectory
itself containing 1 file, and 1 symlink (here pointing at a directory). -/
def c5_example : FSEntry :=
  .dir "top" stDir (FSList.mk
    [.file "a" stReg true (some 1),
     .file "b" stReg true (some 2),
     .dir "sub" stDir (FSList.mk [.file "c" stReg true (some 0)]) true,
     .symlink "s" "t" (.rdir stDir)]) true

/-- C5: CONFIRMED.  `count_file` tests `is_symlink` first, so a symlink's
classification — and the resulting counts — are independent of what it
resolves to: a symlink to a directory adds 1 to `links`, leaves `dirs`
unchanged, and its target is never recursed into (the counts do not depend
on the target at all).  On the spec's example the counts are
`dirs = 1`, `files = 3`, `links = 1`. -/
theorem c5_symlink_before_dir_classification :
    (∀ (n t : String) (res res' : Resolved) (rest : FSList),
      countList (.cons (.symlink n t res) rest) =
        countList (.cons (.symlink n t res') rest)) ∧
    (∀ (n t : String) (res : Resolved) (rest : FSList),
      (countList (.cons (.symlink n t res) rest)).1 =
        ⟨(countList rest).1.dirs, (countList rest).1.files,
         (countList rest).1.links + 1⟩) ∧
    count_file c5_example = (⟨1, 3, 1⟩, []) := by
  refine ⟨fun n t res res' rest => rfl, fun n t res rest => ?_, by decide⟩
  simp [countList, Nat.add_comm]

/-- C6: CONFIRMED.  An unlistable (sub)directory anywhere in a directory's
contents is reported with one diagnostic line and skipped as a subtree:
whatever its hidden contents `sub` are, the final counts are exactly the
counts of the accessible siblings plus 1 for the unopenable directory
itself (which its parent's loop already classified), with nothing double
counted; `count_file` is a total function — the `OSError` is caught, not
raised. -/
theorem c6_unlistable_subtree_skipped (n : String) (st : StatResult)
    (sub pre post : FSList) :
    countList (FSList.app pre (.cons (.dir n st sub false) post)) =
      (⟨(countList (FSList.app pre post)).1.dirs + 1,
        (countList (FSList.app pre post)).1.files,
        (countList (FSList.app pre post)).1.links⟩,
       (countList pre).2 ++ ("Cannot open directory: " ++ n) :: (countList post).2) := by
  rw [countList_app, countList_app]
  simp only [countList, count_file]
  refine Prod.ext ?_ ?_
  · simp only [FileCount.mk.injEq]
    refine ⟨?_, ?_, ?_⟩
    all_goals simp
    all_goals omega
  · simp

/-- C7: CONFIRMED.  `main` dispatches `if args.s / elif args.l / else`, so
long mode is selected exactly when `-l` is given without `-s`; with no
flags or with both flags compact mode runs (with both, `-s` wins); and the
`argparse` positional list defaults to `['.']` when no path is given. -/
theorem c7_mode_selection_and_default_paths :
    (∀ s l : Bool, selected_mode s l = Mode.long ↔ (l = true ∧ s = false)) ∧
    selected_mode false false = Mode.compact ∧
    selected_mode true true = Mode.compact ∧
    selected_mode true false = Mode.compact ∧
    selected_mode false true = Mode.long ∧
    effective_paths [] = ["."] ∧
    (∀ (p : String) (ps : List String), effective_paths (p :: ps) = p :: ps) := by
  refine ⟨by decide, by decide, by decide, by decide, by decide, by decide,
    fun p ps => rfl⟩

/-- C8: CONFIRMED.  During `get_size`'s walk of a directory, a file whose
`os.path.getsize` raises (`sizeOk = false`) is skipped with exactly one
diagnostic line, and the returned total is precisely the total of the same
directory without that file; the result is still a normal return
(`Except.ok`) — the caught `OSError` never aborts the computation. -/
theorem c8_unreadable_file_skipped_and_reported (fname dname : String)
    (fstat dstat : StatResult) (lines : Option Nat) (pre post : FSList) :
    get_size (.dir dname dstat
        (FSList.app pre (.cons (.file fname fstat false lines) post)) true) =
      .ok ((getSizeList (FSList.app pre post)).1,
           (getSizeList pre).2 ++ ("Error: " ++ fname) :: (getSizeList post).2) := by
  simp only [get_size, if_pos]
  rw [getSizeList_app, getSizeList_app]
  simp [getSizeList, walkEntrySize]

/-- C9: CONFIRMED.  The Size Formatter meets all the spec's example
equations: every size of the form `-(n : Nat)` — i.e. every zero or
negative size — yields exactly `"0 B"` on any ladder, and the four
positive examples round to one decimal place as specified. -/
theorem c9_formatter_examples :
    (∀ (n : Nat) (units : List String),
      calculate_size (-(n : Int)) units = some "0 B") ∧
    calculate_size 999 UNITS_1000 = some "999.0 B" ∧
    calculate_size 1000 UNITS_1000 = some "1.0 KB" ∧
    calculate_size 1024 UNITS_1024 = some "1.0 KiB" ∧
    calculate_size 1536 UNITS_1024 = some "1.5 KiB" := by
  refine ⟨fun n units => ?_, by decide, by decide, by decide, by decide⟩
  unfold calculate_size
  rw [if_pos (by omega : -(n : Int) ≤ 0)]

/-- A 1024-byte regular file: on the binary ladder it would format as
`"1.0 KiB"`, on the decimal ladder as `"1.0 KB"`. -/
def c10_kfile : FSEntry := .file "k.bin" ⟨0o100644, 1024, 0, 0, 7⟩ true (some 0)

/-- C10: CONFIRMED.  Both call sites of `stat_size` (`short_mod` line 227
and `long_mod` line 291) omit the `multiplier` argument, so Python's
declared default `1000` applies and the decimal ladder is selected; on a
1024-byte file both modes produce `"1.0 KB"`, and the compact line
contains no binary unit — the `KiB` ladder is unreachable through the
CLI. -/
theorem c10_decimal_ladder_only :
    (∀ e : FSEntry, stat_size_default e = stat_size e 1000) ∧
    (∀ e : FSEntry, long_mod_size e = stat_size e 1000) ∧
    stat_size_default c10_kfile = ([], .ok (some "1.0 KB")) ∧
    containsStr (String.join (short_mod c10_kfile).1) "1.0 KB" = true ∧
    containsStr (String.join (short_mod c10_kfile).1) "KiB" = false := by
  refine ⟨fun e => rfl, fun e => rfl, rfl, by decide, by decide⟩





